import Mathlib

/-!
Verification development for the multi-agent data-engineering swarm
orchestrator (`graph.py`, `config.py`, `agents/*.py`).

The Python sources are shallowly embedded as executable Lean definitions:
pure helpers become Lean functions, the mutable `AgentState` dict becomes a
structure threaded explicitly, and every Python exception path is made
explicit with `Except PyError`.  External collaborators (LLM chains, MCP
tools, retrievers) are modelled as oracle parameters of type
`Except PyError _`, so a theorem quantifying over the oracle covers every
possible collaborator outcome, success or raised exception.

Two points of Python semantics that the embedding models explicitly:
 * `config.PipelineStep` (config.py:17-20) is a pydantic `BaseModel`
   declaring exactly the fields `step_name`, `code_snippet`, `rationale`.
   Pydantic's default configuration (`extra='ignore'`) silently discards
   unknown keyword arguments at construction, and accessing an undeclared
   attribute raises `AttributeError`.  `mkStepWithExtras` and `pyGetAttr`
   embed those two behaviours.
 * Python's `k in d` on a dict tests membership among the *keys*;
   `pyDictHasKey` embeds this for the vote dictionaries built in
   `agents/validator.py:71-77`.

Floating-point note: the similarity value `intersection / union` has
denominator at most 9 (the fixed keyword vocabulary), and no fraction
`i/u` with `u ≤ 9` falls between the rational `3/10` and the IEEE double
nearest to `0.3`, so modelling the arithmetic in `ℚ` preserves every
comparison the source performs.
-/

/-- Python exceptions relevant to the embedded code paths. -/
inductive PyError where
  | attributeError (attr : String) : PyError
  | importError (name : String) : PyError
  | raised (msg : String) : PyError
  deriving Repr, DecidableEq

/-- `config.PipelineStep` (config.py:17-20): a pydantic model with exactly
three declared string fields. -/
structure PipelineStep where
  step_name : String
  code_snippet : String
  rationale : String
  deriving Repr, DecidableEq

/-- Pydantic construction with extra keyword arguments
(e.g. `output_file_path=...` in agents/data_ingestor.py:99-105): under the
default `extra='ignore'` configuration the unknown keywords are discarded
and only the declared fields are kept. -/
def mkStepWithExtras (name code rat : String)
    (_extras : List (String × String)) : PipelineStep :=
  { step_name := name, code_snippet := code, rationale := rat }

/-- Python attribute access on a `PipelineStep` instance: the three declared
fields resolve; any other attribute raises `AttributeError`. -/
def pyGetAttr (s : PipelineStep) (attr : String) : Except PyError String :=
  if attr = "step_name" then .ok s.step_name
  else if attr = "code_snippet" then .ok s.code_snippet
  else if attr = "rationale" then .ok s.rationale
  else .error (.attributeError attr)

/-- Character-list prefix test (auxiliary for the substring test). -/
def charsStartWith : List Char → List Char → Bool
  | [], _ => true
  | _ :: _, [] => false
  | a :: as, b :: bs => a == b && charsStartWith as bs

/-- Occurrence of a character sequence inside another. -/
def charsOccur (needle : List Char) : List Char → Bool
  | [] => needle.isEmpty
  | c :: cs => charsStartWith needle (c :: cs) || charsOccur needle cs

/-- Python's `needle in haystack` on strings (substring test). -/
def pyInStr (needle haystack : String) : Bool :=
  charsOccur needle.data haystack.data

/-- ASCII lowercasing of one character (the matched vocabularies and
separators in the source are ASCII). -/
def lowerChar (c : Char) : Char :=
  if 'A' ≤ c ∧ c ≤ 'Z' then Char.ofNat (c.toNat + 32) else c

/-- Python `s.lower()`. -/
def pyLower (s : String) : String := ⟨s.data.map lowerChar⟩

/-- Auxiliary for single-character `str.split`. -/
def splitCharAux (sep : Char) : List Char → List Char → List (List Char)
  | [], acc => [acc.reverse]
  | c :: cs, acc =>
      if c == sep then acc.reverse :: splitCharAux sep cs []
      else splitCharAux sep cs (c :: acc)

/-- Python `s.split(sep)` for a one-character separator (the source only
splits on `"."` and `";"`).  `"".split(sep) = [""]`. -/
def pySplit (sep : Char) (s : String) : List String :=
  (splitCharAux sep s.data []).map (fun cs => ⟨cs⟩)

/-- Whitespace recognizer for `str.strip()`. -/
def isSpaceChar (c : Char) : Bool :=
  c == ' ' || c == '\t' || c == '\n' || c == '\r'

/-- Python `s.strip()`. -/
def pyStrip (s : String) : String :=
  ⟨((s.data.dropWhile isSpaceChar).reverse.dropWhile isSpaceChar).reverse⟩

/-- Python `s[:n]`. -/
def pyTake (n : Nat) (s : String) : String := ⟨s.data.take n⟩

/-- Python `sep.join(parts)`. -/
def pyJoin (sep : String) : List String → String
  | [] => ""
  | x :: xs => xs.foldl (fun acc y => acc ++ sep ++ y) x

/-- Python's `key in d` for an association-list model of a dict: membership
among the keys. -/
def pyDictHasKey (d : List (String × String)) (k : String) : Bool :=
  d.any (fun kv => kv.1 == k)

/-- Python `history[-3:]`. -/
def pyLastN (n : Nat) (l : List α) : List α :=
  l.drop (l.length - n)

/-- `key_terms` (graph.py:21): the fixed vocabulary of
`calculate_semantic_similarity`. -/
def keyTerms : List String :=
  ["validation", "error", "handling", "transformation", "missing",
   "data", "pipeline", "quality", "incomplete"]

/-- The subset of `key_terms` matched by a gap set (graph.py:23-26):
a term is matched when it occurs in some gap string, lowercased. -/
def matchedKeywords (gaps : List String) : List String :=
  keyTerms.filter (fun term => gaps.any (fun gap => pyInStr term (pyLower gap)))

/-- `calculate_semantic_similarity` (graph.py:18-33): keyword-overlap
similarity of two gap sets, `0.0` when either keyword set is empty, else
`|k1 ∩ k2| / |k1 ∪ k2|`.  The source's `union > 0` guard is kept. -/
def calculate_semantic_similarity (gaps1 gaps2 : List String) : ℚ :=
  let keywords1 := matchedKeywords gaps1
  let keywords2 := matchedKeywords gaps2
  if keywords1 = [] ∨ keywords2 = [] then 0
  else
    let intersection := (keywords1.filter (fun t => t ∈ keywords2)).length
    let union := (keywords1 ∪ keywords2).length
    if union > 0 then (intersection : ℚ) / (union : ℚ) else 0

theorem keyTerms_nodup : keyTerms.Nodup := by decide

theorem matchedKeywords_nodup (gaps : List String) :
    (matchedKeywords gaps).Nodup :=
  keyTerms_nodup.filter _

/-- When both keyword sets are non-empty, the similarity is the Jaccard
index of the corresponding finite sets. -/
theorem sim_eq_jaccard (g1 g2 : List String)
    (h1 : matchedKeywords g1 ≠ []) (h2 : matchedKeywords g2 ≠ []) :
    calculate_semantic_similarity g1 g2 =
      (((matchedKeywords g1).toFinset ∩ (matchedKeywords g2).toFinset).card : ℚ) /
      (((matchedKeywords g1).toFinset ∪ (matchedKeywords g2).toFinset).card : ℚ) := by
  unfold calculate_semantic_similarity
  rw [if_neg (by simp [h1, h2])]
  have hinter : ((matchedKeywords g1).filter
      (fun t => t ∈ matchedKeywords g2)).length =
      ((matchedKeywords g1).toFinset ∩ (matchedKeywords g2).toFinset).card := by
    rw [← List.toFinset_card_of_nodup ((matchedKeywords_nodup g1).filter _),
      List.toFinset_filter]
    congr 1
    ext t
    simp [List.mem_toFinset]
  have hunion : (matchedKeywords g1 ∪ matchedKeywords g2).length =
      ((matchedKeywords g1).toFinset ∪ (matchedKeywords g2).toFinset).card := by
    rw [← List.toFinset_union,
      List.toFinset_card_of_nodup (List.Nodup.union _ (matchedKeywords_nodup g2))]
  have hpos : (matchedKeywords g1 ∪ matchedKeywords g2).length > 0 := by
    cases hk : matchedKeywords g2 with
    | nil => exact absurd hk h2
    | cons a l =>
        have hmem : a ∈ matchedKeywords g1 ∪ (a :: l) :=
          List.mem_union_right _ (List.mem_cons_self a l)
        exact List.length_pos.mpr (List.ne_nil_of_mem hmem)
  rw [if_pos hpos, hinter, hunion]

/-- Either keyword set empty (in particular an empty gap list) forces 0. -/
theorem sim_zero_of_empty (g1 g2 : List String)
    (h : matchedKeywords g1 = [] ∨ matchedKeywords g2 = []) :
    calculate_semantic_similarity g1 g2 = 0 := by
  unfold calculate_semantic_similarity
  rw [if_pos h]

/-- Similarity of a gap set with itself: 1 when it matches at least one
keyword, 0 otherwise. -/
theorem sim_self (g : List String) :
    calculate_semantic_similarity g g =
      if matchedKeywords g = [] then 0 else 1 := by
  by_cases h : matchedKeywords g = []
  · rw [if_pos h]
    exact sim_zero_of_empty g g (Or.inl h)
  · rw [if_neg h, sim_eq_jaccard g g h h]
    rw [Finset.inter_self, Finset.union_self]
    have hcard : ((matchedKeywords g).toFinset.card : ℚ) ≠ 0 := by
      rw [List.toFinset_card_of_nodup (matchedKeywords_nodup g)]
      exact_mod_cast List.length_pos.mpr h |>.ne'
    exact div_self hcard

/-- Disjoint keyword sets force similarity 0. -/
theorem sim_zero_of_disjoint (g1 g2 : List String)
    (h : (matchedKeywords g1).toFinset ∩ (matchedKeywords g2).toFinset = ∅) :
    calculate_semantic_similarity g1 g2 = 0 := by
  by_cases h1 : matchedKeywords g1 = []
  · exact sim_zero_of_empty g1 g2 (Or.inl h1)
  by_cases h2 : matchedKeywords g2 = []
  · exact sim_zero_of_empty g1 g2 (Or.inr h2)
  rw [sim_eq_jaccard g1 g2 h1 h2, h]
  simp

/-! ## Voting round (agents/validator.py) -/

/-- A structured vote dictionary `{"vote": ..., "rationale": ...}`
(agents/validator.py:71-77). -/
structure StructuredVote where
  vote : String
  rationale : String
  deriving Repr, DecidableEq

/-- The association-list view of a structured-vote dict, with its two keys
in construction order. -/
def voteDict (v : StructuredVote) : List (String × String) :=
  [("vote", v.vote), ("rationale", v.rationale)]

/-- `model_keys` (agents/validator.py:45); the same three identifiers form
`VOTING_MODELS` (graph.py:37-41). -/
def modelKeys : List String := ["validator", "cleaner", "transformer"]

/-- The fallback vote `PipelineStep` built when a reviewer invocation
raises (agents/validator.py:58-65). -/
def validationFallbackStep (modelKey : String) : PipelineStep :=
  { step_name := "validation_error_" ++ modelKey
    code_snippet := ""
    rationale := "Validation failed for " ++ modelKey ++
      " - parsing error. Pipeline needs refinement." }

/-- `get_vote_for_model` (agents/validator.py:48-65): the guarded reviewer
invocation; an exception is replaced by the fallback vote. -/
def get_vote_for_model (modelKey : String)
    (callResult : Except PyError PipelineStep) : PipelineStep :=
  match callResult with
  | .ok step => step
  | .error _ => validationFallbackStep modelKey

/-- Classification of a reviewer result into a structured vote
(agents/validator.py:71-77): `"Yes"` iff the lowercased rationale contains
the substring `"yes"`. -/
def structuredVoteOf (v : PipelineStep) : StructuredVote :=
  { vote := if pyInStr "yes" (pyLower v.rationale) then "Yes" else "No"
    rationale := v.rationale }

/-- The vote list of one voting round: one guarded reviewer invocation per
configured model key (agents/validator.py:67-77).  `oracle` gives each
reviewer call's outcome. -/
def votingRound (oracle : String → Except PyError PipelineStep) :
    List StructuredVote :=
  modelKeys.map (fun k => structuredVoteOf (get_vote_for_model k (oracle k)))

/-- The yes-vote count used by the validator itself
(agents/validator.py:79-84); this is also the tally the spec describes. -/
def specYesCount (votes : List StructuredVote) : Nat :=
  votes.countP (fun v => v.vote == "Yes")

/-- The validator's own consensus value (agents/validator.py:79-82):
`count(Yes) > len(votes) / 2` with real division, i.e. `2·yes > n`. -/
def validatorConsensus (votes : List StructuredVote) : Bool :=
  2 * specYesCount votes > votes.length

/-- The summary artifact returned by `validate_steps`
(agents/validator.py:83-92). -/
def validationSummaryStep (votes : List StructuredVote) : PipelineStep :=
  { step_name := "validation"
    code_snippet := if validatorConsensus votes then "" else "Refine pipeline"
    rationale := "Consensus: " ++ toString (specYesCount votes) ++ "/" ++
      toString votes.length ++ " yes votes. Details: " ++
      pyJoin " | " (votes.map (fun v => v.rationale)) }

/-- `validate_steps` (agents/validator.py:27-92).  The MCP tool call at
lines 31-41 precedes any try/except, so its failure propagates; on success
the reviewer fan-out runs and the summary artifact plus the structured
votes are returned. -/
def validate_steps (mcpResult : Except PyError String)
    (oracle : String → Except PyError PipelineStep) :
    Except PyError (PipelineStep × List StructuredVote) := do
  let _ ← mcpResult
  let votes := votingRound oracle
  .ok (validationSummaryStep votes, votes)

/-! ## Orchestrator state (graph.py:45-59) -/

/-- `MAX_DEBATE_ROUNDS` (graph.py:36). -/
def MAX_DEBATE_ROUNDS : Nat := 3

/-- `AgentState` (graph.py:45-59).  Python dicts become association lists;
the mutable dict is threaded as a value. -/
structure AgentState where
  task : String
  refined_prompt : String
  pipeline_steps : List PipelineStep
  debate_rounds : Nat
  consensus_reached : Bool
  discovered_tools : List (String × String)
  feedback_summary : String
  feedback_history : List String
  gap_escalation_count : Nat
  current_data_path : String
  data_format : String
  pipeline_metadata : List (String × String)
  deriving Repr, DecidableEq

/-- The initial state used by `main.py:75-90` (the fields the claims
exercise; collaborator-produced fields start empty). -/
def initialState (task : String) : AgentState :=
  { task := task
    refined_prompt := ""
    pipeline_steps := []
    debate_rounds := 0
    consensus_reached := false
    discovered_tools := []
    feedback_summary := ""
    feedback_history := []
    gap_escalation_count := 0
    current_data_path := "data/sales_data.csv"
    data_format := "csv"
    pipeline_metadata := [] }

/-! ## Debate node internals (graph.py:186-264) -/

/-- The consensus flag computed at graph.py:196:
`sum(1 for v in votes if "Yes" in v) > len(votes) / 2`.
Each `v` is a structured-vote dict, so `"Yes" in v` is a membership test
among the dict's keys. -/
def debateConsensusFlag (votes : List StructuredVote) : Bool :=
  2 * votes.countP (fun v => pyDictHasKey (voteDict v) "Yes") > votes.length

/-- `gap_keywords` (graph.py:204). -/
def gapKeywords : List String :=
  ["missing", "lacks", "incomplete", "should include", "needs",
   "requires", "absent"]

/-- Gap mining (graph.py:199-210): from each No vote, keep the
sentence-like segments of the lowercased rationale containing a gap
keyword; deduplicate and cap at 5.  Python's `set` iteration order is
unspecified; the model fixes first-occurrence order, which the claims'
statements do not depend on. -/
def extractGaps (votes : List StructuredVote) : List String :=
  let segments := votes.foldl (fun acc v =>
    if v.vote == "No" then
      acc ++ ((pySplit '.' (pyLower v.rationale)).filter
        (fun line => gapKeywords.any (fun kw => pyInStr kw line))).map pyStrip
    else acc) []
  segments.eraseDups.take 5

/-- Feedback summary construction (graph.py:209-211): the conditional
expression covers the whole concatenation, so an empty gap list yields the
empty string. -/
def feedbackSummaryOf (uniqueGaps : List String) : String :=
  if uniqueGaps ≠ [] then "MUST address these gaps: " ++ pyJoin "; " uniqueGaps
  else ""

/-- The last three history entries with empty ones removed
(Python truthiness, graph.py:221). -/
def nonEmptyRecentOf (history : List String) : List String :=
  (pyLastN 3 history).filter (fun f => f ≠ "")

/-- `recent_gaps` (graph.py:219-221): the last three history entries,
with empty ones removed by Python truthiness, each split on `";"`. -/
def recentGapsOf (history : List String) : List (List String) :=
  (nonEmptyRecentOf history).map (fun f => pySplit ';' f)

/-- The escalation trigger (graph.py:218-224), evaluated after the current
round's feedback has been appended to `feedback_history`: more than two
history entries, escalation count below 2, at least two of the last three
entries non-empty, similarity of the first and last *filtered* entries
above 0.3, and a non-empty current gap list. -/
def escalationFires (history : List String) (count : Nat)
    (uniqueGaps : List String) : Bool :=
  decide (history.length > 2) && decide (count < 2) &&
    (let recentGaps := recentGapsOf history
     decide (recentGaps.length ≥ 2) &&
       decide (calculate_semantic_similarity (recentGaps.headD [])
         (recentGaps.getLastD []) > 3/10) &&
       decide (uniqueGaps.length > 0))

/-- The feedback/escalation-count step of the debate node
(graph.py:213-230): append the joined current gaps to the history, then
increment `gap_escalation_count` exactly when the trigger fires.  Returns
the updated state and whether escalation fired. -/
def debateFeedbackStep (uniqueGaps : List String) (s : AgentState) :
    AgentState × Bool :=
  let current_feedback := pyJoin "; " uniqueGaps
  let s := { s with feedback_history := s.feedback_history ++ [current_feedback] }
  let fires := escalationFires s.feedback_history s.gap_escalation_count uniqueGaps
  (if fires then { s with gap_escalation_count := s.gap_escalation_count + 1 }
   else s, fires)

/-- The module-level names defined by `agents/validator.py` (its imports
and top-level bindings).  `validate_pipeline` is not among them, so the
`from agents.validator import validate_pipeline` statement at graph.py:247
raises `ImportError`. -/
def validatorModuleNames : List String :=
  ["asyncio", "List", "ChatPromptTemplate", "PydanticOutputParser", "MODELS",
   "PipelineStep", "ClientSession", "streamablehttp_client", "parser",
   "validate_template", "prompt", "chain", "validate_steps"]

/-- Resolution of `from agents.validator import name` (graph.py:247). -/
def importFromValidator (name : String) : Except PyError Unit :=
  if name ∈ validatorModuleNames then .ok () else .error (.importError name)

/-- `debate_node` (graph.py:187-264).  `validateFn` is the
`validate_steps` collaborator applied to the artifact chain and refined
prompt; `resolveFn` is `resolve_persistent_gaps`.  When escalation fires,
the source increments the count, appends the resolver artifact, and then
executes `from agents.validator import validate_pipeline`; that import
fails (see `validatorModuleNames`), so the intra-round validation at
graph.py:248-263 is unreachable and the node raises. -/
def debate_node
    (validateFn : List PipelineStep → String →
      Except PyError (PipelineStep × List StructuredVote))
    (resolveFn : String → String → List String → Except PyError PipelineStep)
    (s : AgentState) : Except PyError AgentState := do
  let (step, votes) ← validateFn s.pipeline_steps s.refined_prompt
  let s := { s with pipeline_steps := s.pipeline_steps ++ [step],
                    debate_rounds := s.debate_rounds + 1 }
  let s := { s with consensus_reached := debateConsensusFlag votes }
  let uniqueGaps := extractGaps votes
  let s := { s with feedback_summary := feedbackSummaryOf uniqueGaps }
  let current_feedback := pyJoin "; " uniqueGaps
  let (s, fires) := debateFeedbackStep uniqueGaps s
  if fires then do
    let resolver_step ← resolveFn current_feedback s.refined_prompt
      s.feedback_history
    let s := { s with pipeline_steps := s.pipeline_steps ++ [resolver_step] }
    let _ ← importFromValidator "validate_pipeline"
    -- graph.py:248-263 (intra-round validation) is dead code: the import
    -- above always raises, so this continuation is never reached.
    .ok s
  else
    .ok s

/-! ## Stage runners (graph.py:114-183) and cursor update -/

/-- The cursor update each stage node performs (graph.py:135-139, 156-160,
177-181): `if step.output_file_path:` reads an attribute that
`config.PipelineStep` does not declare, so the access raises
`AttributeError` before any update happens. -/
def cursorUpdate (step : PipelineStep) (metaKey : String) (s : AgentState) :
    Except PyError AgentState := do
  let locator ← pyGetAttr step "output_file_path"
  if locator ≠ "" then do
    let fmt ← pyGetAttr step "output_format"
    .ok { s with current_data_path := locator, data_format := fmt,
                 pipeline_metadata := (metaKey, locator) :: s.pipeline_metadata }
  else
    .ok s

/-- `prompt_node` (graph.py:114-122): builds the feedback-augmented task,
invokes the refinement collaborator (no exception handling at this call
site), stores the rationale and appends the artifact. -/
def prompt_node (refineFn : String → Except PyError PipelineStep)
    (s : AgentState) : Except PyError AgentState := do
  let task_with_feedback :=
    if s.feedback_summary ≠ "" then
      s.feedback_summary ++ "\n\nOriginal Task: " ++ s.task ++
        "\n\nIMPORTANT: Address the gaps above in your refinements."
    else s.task
  let refined ← refineFn task_with_feedback
  .ok { s with refined_prompt := refined.rationale,
               pipeline_steps := s.pipeline_steps ++ [refined] }

/-- `ingest_node` (graph.py:125-141). -/
def ingest_node
    (ingestFn : String → String → String → Except PyError PipelineStep)
    (s : AgentState) : Except PyError AgentState := do
  let step ← ingestFn s.current_data_path s.feedback_summary s.data_format
  let s := { s with pipeline_steps := s.pipeline_steps ++ [step] }
  cursorUpdate step "last_ingest_output" s

/-- `clean_node` (graph.py:144-162): reads `pipeline_steps[-1]` (an
`IndexError` on an empty list), then invokes the cleaner. -/
def clean_node
    (cleanFn : String → PipelineStep → String → String →
      Except PyError PipelineStep)
    (s : AgentState) : Except PyError AgentState := do
  let last_step ← match s.pipeline_steps.getLast? with
    | some l => Except.ok l
    | none => Except.error (.raised "IndexError")
  let step ← cleanFn s.current_data_path last_step s.feedback_summary
    s.data_format
  let s := { s with pipeline_steps := s.pipeline_steps ++ [step] }
  cursorUpdate step "last_clean_output" s

/-- `transform_node` (graph.py:165-183). -/
def transform_node
    (transformFn : String → PipelineStep → String → String →
      Except PyError PipelineStep)
    (s : AgentState) : Except PyError AgentState := do
  let last_step ← match s.pipeline_steps.getLast? with
    | some l => Except.ok l
    | none => Except.error (.raised "IndexError")
  let step ← transformFn s.current_data_path last_step s.feedback_summary
    s.data_format
  let s := { s with pipeline_steps := s.pipeline_steps ++ [step] }
  cursorUpdate step "last_transform_output" s

/-- `discovery_node` (graph.py:76-110): on success, maps the discovered
tool names to agent roles, falling back to a static map when nothing is
recognized; any exception yields an empty tool map.  The node never
raises. -/
def discovery_node (discoResult : Except PyError (List String))
    (s : AgentState) : AgentState :=
  match discoResult with
  | .error _ => { s with discovered_tools := [] }
  | .ok tools =>
      let dt :=
        (if "load_csv" ∈ tools then [("ingest", "load_csv")] else []) ++
        (if "clean_data" ∈ tools then [("clean", "clean_data")] else []) ++
        (if "transform_data" ∈ tools then [("transform", "transform_data")] else []) ++
        (if "validate_data" ∈ tools then [("validate", "validate_data")] else [])
      let dt := if dt = [] then
          [("ingest", "default_load"), ("clean", "default_clean")]
        else dt
      { s with discovered_tools := dt }

/-! ## Routing (graph.py:268-276) and the round loop -/

/-- Conditional-edge targets of the debate node (graph.py:301). -/
inductive RouteTarget where
  | toPrompt : RouteTarget
  | toEnd : RouteTarget
  deriving Repr, DecidableEq

/-- `route` (graph.py:268-276). -/
def route (s : AgentState) : RouteTarget :=
  if s.consensus_reached then .toEnd
  else if s.debate_rounds ≥ MAX_DEBATE_ROUNDS then .toEnd
  else .toPrompt

/-! ## Stage generators (agents/prompt_engineer.py, data_ingestor.py,
cleaner.py, transformer.py) -/

/-- `refine_prompt` (agents/prompt_engineer.py:22-27): two chained
collaborator invocations with no exception handling; an error from either
propagates. -/
def refine_prompt (chainCall : String → Except PyError PipelineStep)
    (user_prompt : String) : Except PyError PipelineStep := do
  let initial ← chainCall user_prompt
  chainCall ("Critique and improve: " ++ initial.rationale)

/-- The fallback artifact of `ingest_data`
(agents/data_ingestor.py:96-105): built with the undeclared keyword
arguments `output_file_path`/`output_format`, which pydantic discards. -/
def ingestFallbackStep (e : String) : PipelineStep :=
  mkStepWithExtras "data_ingestion_fallback"
    "df = pd.read_csv(\x27data/sales_data.csv\x27); df.to_csv(\x27data/ingested_sales_data.csv\x27, index=False); print(f\x27Shape: \x7bdf.shape\x7d\x27); print(f\x27Nulls: \x7bdf.isnull().sum().sum()\x7d\x27)"
    ("Ingestor failed with parsing error. Applied basic CSV loading and profiling. Original error: "
      ++ pyTake 100 e)
    [("output_file_path", "data/ingested_sales_data.csv"),
     ("output_format", "csv")]

/-- Rendering of a Python exception as `str(e)` for f-string interpolation
in the fallback rationales. -/
def pyErrorText : PyError → String
  | .attributeError attr =>
      "\x27PipelineStep\x27 object has no attribute \x27" ++ attr ++ "\x27"
  | .importError name => "cannot import name \x27" ++ name ++ "\x27"
  | .raised msg => msg

/-- The guarded chain invocation of `ingest_data`
(agents/data_ingestor.py:81-105): any error from the invocation is
replaced by the fallback artifact. -/
def ingestDataGuarded (chainResult : Except PyError PipelineStep) :
    PipelineStep :=
  match chainResult with
  | .ok r => r
  | .error e => ingestFallbackStep (pyErrorText e)

/-- `ingest_data` (agents/data_ingestor.py:48-105): the retrieval and MCP
tool calls at lines 50-65 precede the try/except, so their errors
propagate; only the chain invocation is guarded. -/
def ingest_data (retrieverResult : Except PyError (List String))
    (mcpResult : Except PyError String)
    (chainResult : Except PyError PipelineStep) :
    Except PyError PipelineStep := do
  let _ ← retrieverResult
  let _ ← mcpResult
  .ok (ingestDataGuarded chainResult)

/-- The fallback artifact of `clean_data` (agents/cleaner.py:101-107),
given the input path already computed. -/
def cleanFallbackStep (input_path e : String) : PipelineStep :=
  mkStepWithExtras "data_cleaning_fallback"
    ("df = pd.read_csv(\x27" ++ input_path ++
      "\x27); df_cleaned = df.dropna(); df_cleaned.to_csv(\x27data/cleaned_sales_data.csv\x27, index=False)")
    ("Cleaner failed with parsing error. Applied basic cleaning - dropna(). Original error: "
      ++ pyTake 100 e)
    [("output_file_path", "data/cleaned_sales_data.csv"),
     ("output_format", "csv")]

/-- The guarded chain invocation of `clean_data` (agents/cleaner.py:84-107).
The except handler itself first evaluates
`ingest_step.output_file_path` (line 100), an attribute `PipelineStep`
does not declare, so the handler raises `AttributeError` instead of
returning the fallback. -/
def cleanDataGuarded (ingest_step : PipelineStep) (dataset_path : String)
    (chainResult : Except PyError PipelineStep) :
    Except PyError PipelineStep :=
  match chainResult with
  | .ok r => .ok r
  | .error e => do
      let locator ← pyGetAttr ingest_step "output_file_path"
      let input_path := if locator ≠ "" then locator else dataset_path
      .ok (cleanFallbackStep input_path (pyErrorText e))

/-- The fallback artifact of `transform_data`
(agents/transformer.py:99-105), given the input path already computed. -/
def transformFallbackStep (input_path e : String) : PipelineStep :=
  mkStepWithExtras "feature_engineering_fallback"
    ("df = pd.read_csv(\x27" ++ input_path ++
      "\x27); df[\x27profit_ratio\x27] = df[\x27profit\x27] / df[\x27revenue\x27]; df.to_csv(\x27data/transformed_sales_data.csv\x27, index=False)")
    ("Transformer failed with parsing error. Applied basic profit ratio derivation. Original error: "
      ++ pyTake 100 e)
    [("output_file_path", "data/transformed_sales_data.csv"),
     ("output_format", "csv")]

/-- The guarded chain invocation of `transform_data`
(agents/transformer.py:82-105): like the cleaner, the handler reads
`clean_step.output_file_path` (line 98) and raises. -/
def transformDataGuarded (clean_step : PipelineStep) (dataset_path : String)
    (chainResult : Except PyError PipelineStep) :
    Except PyError PipelineStep :=
  match chainResult with
  | .ok r => .ok r
  | .error e => do
      let locator ← pyGetAttr clean_step "output_file_path"
      let input_path := if locator ≠ "" then locator else dataset_path
      .ok (transformFallbackStep input_path (pyErrorText e))

/-! ## Round-loop models -/

/-- The effect of one full stage sequence on the routing-relevant fields:
`debate_node` is the only writer of `debate_rounds` (graph.py:193,
increment by one per pass) and of `consensus_reached`; the vote outcome of
round `r` is abstracted as `consensusOf r`. -/
def stageSequence (consensusOf : Nat → Bool) (s : AgentState) : AgentState :=
  let r := s.debate_rounds + 1
  { s with debate_rounds := r, consensus_reached := consensusOf r }

/-- The debate loop (graph.py:295-301): run one full stage sequence, then
follow `route`; `END` stops, `"prompt"` starts the next sequence.  Returns
the final state and the number of full stage sequences executed.  `fuel`
bounds the recursion (LangGraph's own step limit plays this role). -/
def runPasses (consensusOf : Nat → Bool) : Nat → AgentState → AgentState × Nat
  | 0, s => (s, 0)
  | fuel + 1, s =>
      let s' := stageSequence consensusOf s
      match route s' with
      | .toEnd => (s', 1)
      | .toPrompt =>
          let p := runPasses consensusOf fuel s'
          (p.1, p.2 + 1)

/-- Iteration of the feedback/escalation-count step across voting rounds
(the `debate_node` lines 213-230 executed once per round);
`gapsOf r` is the gap list the round with `r` previous history entries
produced. -/
def runEscalationRounds (gapsOf : Nat → List String) :
    Nat → AgentState → AgentState
  | 0, s => s
  | n + 1, s =>
      runEscalationRounds gapsOf n
        (debateFeedbackStep (gapsOf s.feedback_history.length) s).1

/-! ## Claim-side definitions (formalizing the spec's words, for
comparison against the source-derived definitions) -/

/-- The escalation precondition as claim C5 words it: the similarity is
taken between the gap sets of the first and the last of the last three
rounds (no filtering of empty feedback entries). -/
def claimedEscalationCondition (history : List String) (count : Nat)
    (uniqueGaps : List String) : Prop :=
  history.length > 2 ∧ count < 2 ∧
    calculate_semantic_similarity
      (pySplit ';' ((pyLastN 3 history).headD ""))
      (pySplit ';' ((pyLastN 3 history).getLastD "")) > 3/10 ∧
    uniqueGaps ≠ []

/-- The amended escalation precondition: as the code computes it, the
similarity is taken between the first and the last of the *non-empty*
feedback entries among the last three rounds, and at least two of those
entries must be non-empty. -/
def amendedEscalationCondition (history : List String) (count : Nat)
    (uniqueGaps : List String) : Prop :=
  history.length > 2 ∧ count < 2 ∧
    (nonEmptyRecentOf history).length ≥ 2 ∧
    calculate_semantic_similarity
      (pySplit ';' ((nonEmptyRecentOf history).headD ""))
      (pySplit ';' ((nonEmptyRecentOf history).getLastD "")) > 3/10 ∧
    uniqueGaps ≠ []

/-- The consensus rule as the spec states it (strict majority of Yes
votes, `count(Yes) > N/2`). -/
def specConsensus (votes : List StructuredVote) : Prop :=
  2 * specYesCount votes > votes.length

/-! ## Full post-discovery run (graph.py:279-303) -/

/-- The collaborator bundle a run is parameterized by: one function per
external call the stage nodes make. -/
structure Collaborators where
  refineFn : String → Except PyError PipelineStep
  ingestFn : String → String → String → Except PyError PipelineStep
  cleanFn : String → PipelineStep → String → String →
    Except PyError PipelineStep
  transformFn : String → PipelineStep → String → String →
    Except PyError PipelineStep
  validateFn : List PipelineStep → String →
    Except PyError (PipelineStep × List StructuredVote)
  resolveFn : String → String → List String → Except PyError PipelineStep

/-- One full pass `prompt → ingest → clean → transform → debate`
(graph.py:296-300). -/
def roundPass (c : Collaborators) (s : AgentState) :
    Except PyError AgentState := do
  let s ← prompt_node c.refineFn s
  let s ← ingest_node c.ingestFn s
  let s ← clean_node c.cleanFn s
  let s ← transform_node c.transformFn s
  debate_node c.validateFn c.resolveFn s

/-- The conditional debate loop (graph.py:301): repeat full passes until
`route` returns `END`, bounded by `fuel`. -/
def runLoop (c : Collaborators) : Nat → AgentState → Except PyError AgentState
  | 0, s => .ok s
  | fuel + 1, s => do
      let s' ← roundPass c s
      match route s' with
      | .toEnd => .ok s'
      | .toPrompt => runLoop c fuel s'

/-- Replace the discovered capability map of a state. -/
def setTools (s : AgentState) (tools : List (String × String)) : AgentState :=
  { s with discovered_tools := tools }

/-- Erase the capability map: the observables of a run are all the other
fields. -/
def eraseTools (s : AgentState) : AgentState := setTools s []

/-! ## Shared lemmas -/

@[simp] theorem except_bind_ok {ε α β : Type} (a : α) (f : α → Except ε β) :
    (Except.ok a >>= f) = f a := rfl

@[simp] theorem except_bind_error {ε α β : Type} (e : ε)
    (f : α → Except ε β) :
    ((Except.error e : Except ε α) >>= f) = Except.error e := rfl

@[simp] theorem except_map_ok {ε α β : Type} (a : α) (f : α → β) :
    (Except.ok a : Except ε α).map f = Except.ok (f a) := rfl

@[simp] theorem except_map_error {ε α β : Type} (e : ε) (f : α → β) :
    (Except.error e : Except ε α).map f = Except.error e := rfl

/-- The key-membership test of graph.py:196 never succeeds: a structured
vote dict has exactly the keys `"vote"` and `"rationale"`. -/
theorem pyDictHasKey_yes_false (v : StructuredVote) :
    pyDictHasKey (voteDict v) "Yes" = false := by
  simp [pyDictHasKey, voteDict]

theorem debate_yes_key_count_zero (votes : List StructuredVote) :
    votes.countP (fun v => pyDictHasKey (voteDict v) "Yes") = 0 := by
  induction votes with
  | nil => rfl
  | cons v vs ih => simp [List.countP_cons, ih, pyDictHasKey_yes_false]

/-- The stage nodes' cursor update always raises: `PipelineStep` declares
no `output_file_path` attribute. -/
theorem cursorUpdate_raises (step : PipelineStep) (metaKey : String)
    (s : AgentState) :
    cursorUpdate step metaKey s =
      Except.error (.attributeError "output_file_path") := rfl

/-! ## C1 -/

/-- C1: the claim says `consensus_reached` is set to true iff the Yes
votes form a strict majority.  In the code (graph.py:196) the comprehension
`sum(1 for v in votes if "Yes" in v)` tests `"Yes"` against the *keys* of
each vote dict (`"vote"`, `"rationale"`), so the count is always 0 and the
flag is always false — also for a unanimous-Yes round, where the claimed
rule demands true. -/
theorem C1_consensus_flag_constant_false :
    (∀ votes : List StructuredVote, debateConsensusFlag votes = false) ∧
    (specConsensus
        [{ vote := "Yes", rationale := "yes, the steps are valid" },
         { vote := "Yes", rationale := "yes" },
         { vote := "Yes", rationale := "yes, ship it" }] ∧
      debateConsensusFlag
        [{ vote := "Yes", rationale := "yes, the steps are valid" },
         { vote := "Yes", rationale := "yes" },
         { vote := "Yes", rationale := "yes, ship it" }] = false) := by
  refine ⟨fun votes => ?_, ?_, ?_⟩
  · simp [debateConsensusFlag, debate_yes_key_count_zero]
  · unfold specConsensus specYesCount
    decide
  · decide

/-! ## C3 -/

/-- C3: the claim says an Artifact carries an optional `output_locator`
and the stage runner updates the cursor from it.  `config.PipelineStep`
declares no such field: pydantic drops the `output_file_path` keyword the
fallback constructors pass (so the fallback artifact of the ingest stage
carries no locator), and the read `step.output_file_path` at graph.py:136
raises `AttributeError` for every artifact, so the cursor update never
happens. -/
theorem C3_no_output_locator_cursor_never_updates :
    (∀ (step : PipelineStep) (metaKey : String) (s : AgentState),
      cursorUpdate step metaKey s =
        Except.error (.attributeError "output_file_path")) ∧
    (ingestFallbackStep "boom").step_name = "data_ingestion_fallback" ∧
    pyGetAttr (ingestFallbackStep "boom") "output_file_path" =
      Except.error (.attributeError "output_file_path") := by
  refine ⟨cursorUpdate_raises, rfl, ?_⟩
  simp [pyGetAttr]

/-! ## C4 -/

theorem runPasses_bound (co : Nat → Bool) :
    ∀ (fuel : Nat) (s : AgentState), s.debate_rounds < MAX_DEBATE_ROUNDS →
      (runPasses co fuel s).1.debate_rounds ≤ MAX_DEBATE_ROUNDS ∧
      (runPasses co fuel s).2 ≤ MAX_DEBATE_ROUNDS - s.debate_rounds := by
  intro fuel
  induction fuel with
  | zero =>
      intro s h
      exact ⟨Nat.le_of_lt h, Nat.zero_le _⟩
  | succ n ih =>
      intro s h
      have hr : (stageSequence co s).debate_rounds = s.debate_rounds + 1 := rfl
      unfold runPasses
      cases hroute : route (stageSequence co s) with
      | toEnd =>
          simp only [hroute]
          constructor
          · rw [hr]; omega
          · omega
      | toPrompt =>
          have hlt : (stageSequence co s).debate_rounds < MAX_DEBATE_ROUNDS := by
            unfold route at hroute
            by_cases hc : (stageSequence co s).consensus_reached
            · simp [hc] at hroute
            · by_cases hge :
                (stageSequence co s).debate_rounds ≥ MAX_DEBATE_ROUNDS
              · simp [hc, hge] at hroute
              · omega
          obtain ⟨ha, hb⟩ := ih (stageSequence co s) hlt
          simp only [hroute]
          refine ⟨ha, ?_⟩
          rw [hr] at hb
          omega

/-- C4: routing terminates the run exactly when consensus is reached or
three voting rounds have completed, and from a fresh round counter no run
executes more than three full stage sequences nor pushes the counter past
three. -/
theorem C4_round_cap :
    (∀ s : AgentState, route s = RouteTarget.toEnd ↔
      (s.consensus_reached = true ∨ s.debate_rounds ≥ MAX_DEBATE_ROUNDS)) ∧
    (∀ (co : Nat → Bool) (fuel : Nat) (s : AgentState),
      (runPasses co fuel { s with debate_rounds := 0 }).2 ≤
        MAX_DEBATE_ROUNDS ∧
      (runPasses co fuel { s with debate_rounds := 0 }).1.debate_rounds ≤
        MAX_DEBATE_ROUNDS) := by
  constructor
  · intro s
    unfold route
    by_cases hc : s.consensus_reached <;>
      by_cases hge : s.debate_rounds ≥ MAX_DEBATE_ROUNDS <;>
      simp [hc, hge]
  · intro co fuel s
    have h := runPasses_bound co fuel { s with debate_rounds := 0 }
      (by simp [MAX_DEBATE_ROUNDS])
    exact ⟨by simpa using h.2, h.1⟩

/-! ## C8 -/

/-- C8: a reviewer call that raises is replaced by a synthetic No vote
whose rationale names the failing reviewer and contains "error", and the
round still yields exactly one vote per configured reviewer (three).  Each
of the three configured reviewers is covered, with the other reviewers'
outcomes arbitrary. -/
theorem C8_reviewer_error_yields_synthetic_no :
    ∀ (e : String) (oracle : String → Except PyError PipelineStep),
      ((votingRound (fun k => if k = "validator" then
          Except.error (.raised e) else oracle k)).length = modelKeys.length ∧
        (votingRound (fun k => if k = "validator" then
          Except.error (.raised e) else oracle k))[0]? =
          some { vote := "No",
                 rationale := (validationFallbackStep "validator").rationale } ∧
        pyInStr "validator" (validationFallbackStep "validator").rationale = true ∧
        pyInStr "error" (validationFallbackStep "validator").rationale = true) ∧
      ((votingRound (fun k => if k = "cleaner" then
          Except.error (.raised e) else oracle k)).length = modelKeys.length ∧
        (votingRound (fun k => if k = "cleaner" then
          Except.error (.raised e) else oracle k))[1]? =
          some { vote := "No",
                 rationale := (validationFallbackStep "cleaner").rationale } ∧
        pyInStr "cleaner" (validationFallbackStep "cleaner").rationale = true ∧
        pyInStr "error" (validationFallbackStep "cleaner").rationale = true) ∧
      ((votingRound (fun k => if k = "transformer" then
          Except.error (.raised e) else oracle k)).length = modelKeys.length ∧
        (votingRound (fun k => if k = "transformer" then
          Except.error (.raised e) else oracle k))[2]? =
          some { vote := "No",
                 rationale := (validationFallbackStep "transformer").rationale } ∧
        pyInStr "transformer" (validationFallbackStep "transformer").rationale = true ∧
        pyInStr "error" (validationFallbackStep "transformer").rationale = true) := by
  intro e oracle
  exact ⟨⟨rfl, rfl, by decide, by decide⟩,
         ⟨rfl, rfl, by decide, by decide⟩,
         ⟨rfl, rfl, by decide, by decide⟩⟩

/-! ## C9 -/

/-- C9 counterexample: the claim asserts that identical non-empty gap sets
yield similarity 1.0; the gap set `["hello"]` is non-empty and identical
to itself, yet its similarity is 0 (it matches no vocabulary keyword). -/
theorem C9_counterexample_identical_no_keywords :
    (["hello"] : List String) ≠ [] ∧
    calculate_semantic_similarity ["hello"] ["hello"] ≠ 1 := by
  constructor
  · simp
  · rw [sim_zero_of_empty _ _ (Or.inl (by decide))]
    norm_num

/-- C9 (amended): the similarity equals the Jaccard index of the two
matched-keyword sets (0 when they are disjoint, hence in particular when
either is empty or when the gap sets share no keyword), and identical gap
sets yield 1 exactly when their matched-keyword set is non-empty. -/
theorem C9_similarity_is_jaccard :
    (∀ g1 g2 : List String,
      calculate_semantic_similarity g1 g2 =
        if (matchedKeywords g1).toFinset ∩ (matchedKeywords g2).toFinset = ∅
        then 0
        else
          (((matchedKeywords g1).toFinset ∩
            (matchedKeywords g2).toFinset).card : ℚ) /
          (((matchedKeywords g1).toFinset ∪
            (matchedKeywords g2).toFinset).card : ℚ)) ∧
    (∀ g : List String,
      calculate_semantic_similarity g g =
        if matchedKeywords g = [] then 0 else 1) := by
  constructor
  · intro g1 g2
    by_cases hI :
      (matchedKeywords g1).toFinset ∩ (matchedKeywords g2).toFinset = ∅
    · rw [if_pos hI, sim_zero_of_disjoint g1 g2 hI]
    · rw [if_neg hI]
      obtain ⟨x, hx⟩ := Finset.nonempty_iff_ne_empty.mpr hI
      rw [Finset.mem_inter, List.mem_toFinset, List.mem_toFinset] at hx
      exact sim_eq_jaccard g1 g2
        (List.ne_nil_of_mem hx.1) (List.ne_nil_of_mem hx.2)
  · exact sim_self

/-! ## C5 -/

theorem map_headD_of_ne_nil (f : String → List String) (l : List String)
    (hl : l ≠ []) : (l.map f).headD [] = f (l.headD "") := by
  cases l with
  | nil => exact absurd rfl hl
  | cons a t => rfl

theorem map_getLastD_of_ne_nil (f : String → List String) (l : List String)
    (hl : l ≠ []) : (l.map f).getLastD [] = f (l.getLastD "") := by
  obtain ⟨x, hx⟩ := Option.isSome_iff_exists.mp (List.getLast?_isSome.mpr hl)
  rw [List.getLastD_eq_getLast?, List.getLastD_eq_getLast?,
    List.getLast?_map, hx]
  rfl

/-- A firing escalation implies the count was below the cap. -/
theorem escalationFires_count_lt (h : List String) (c : Nat)
    (g : List String) (hf : escalationFires h c g = true) : c < 2 := by
  unfold escalationFires at hf
  simp only [Bool.and_eq_true, decide_eq_true_eq] at hf
  exact hf.1.2

theorem debateFeedbackStep_count_eq (g : List String) (s : AgentState) :
    (debateFeedbackStep g s).1.gap_escalation_count =
      if (debateFeedbackStep g s).2 then s.gap_escalation_count + 1
      else s.gap_escalation_count := by
  unfold debateFeedbackStep
  cases hf : escalationFires (s.feedback_history ++ [pyJoin "; " g])
      s.gap_escalation_count g with
  | true => simp [hf]
  | false => simp [hf]

theorem runEscalationRounds_cap_aux (f : Nat → List String) :
    ∀ (n : Nat) (s : AgentState), s.gap_escalation_count ≤ 2 →
      (runEscalationRounds f n s).gap_escalation_count ≤ 2 := by
  intro n
  induction n with
  | zero => intro s h; exact h
  | succ m ih =>
      intro s h
      unfold runEscalationRounds
      apply ih
      cases hf : escalationFires (s.feedback_history ++
          [pyJoin "; " (f s.feedback_history.length)])
          s.gap_escalation_count (f s.feedback_history.length) with
      | true =>
          have hlt := escalationFires_count_lt _ _ _ hf
          simp [debateFeedbackStep, hf]
          omega
      | false => simpa [debateFeedbackStep, hf] using h

theorem escalationFires_iff_amended (h : List String) (c : Nat)
    (g : List String) :
    escalationFires h c g = true ↔ amendedEscalationCondition h c g := by
  unfold escalationFires amendedEscalationCondition recentGapsOf
  simp only [Bool.and_eq_true, decide_eq_true_eq, List.length_map]
  constructor
  · rintro ⟨⟨h1, h2⟩, ⟨h3, h4⟩, h5⟩
    have hne : nonEmptyRecentOf h ≠ [] := by
      intro hnil
      rw [hnil] at h3
      simp at h3
    refine ⟨h1, h2, h3, ?_, List.length_pos.mp h5⟩
    rwa [map_headD_of_ne_nil _ _ hne, map_getLastD_of_ne_nil _ _ hne] at h4
  · rintro ⟨h1, h2, h3, h4, h5⟩
    have hne : nonEmptyRecentOf h ≠ [] := by
      intro hnil
      rw [hnil] at h3
      simp at h3
    refine ⟨⟨h1, h2⟩, ⟨h3, ?_⟩, List.length_pos.mpr h5⟩
    rwa [map_headD_of_ne_nil _ _ hne, map_getLastD_of_ne_nil _ _ hne]

theorem sim_missing_validation_self :
    calculate_semantic_similarity ["missing data validation"]
      ["missing data validation"] = 1 := by
  rw [sim_self,
    if_neg (show ¬ (matchedKeywords ["missing data validation"] = []) by decide)]

theorem escFires_round_one :
    escalationFires ["missing data validation"] 0
      ["missing data validation"] = false := by
  simp [escalationFires]

theorem escFires_round_two :
    escalationFires ["missing data validation", "missing data validation"] 0
      ["missing data validation"] = false := by
  simp [escalationFires]

theorem escFires_round_three :
    escalationFires ["missing data validation", "missing data validation",
      "missing data validation"] 0 ["missing data validation"] = true := by
  have hrg : recentGapsOf ["missing data validation",
      "missing data validation", "missing data validation"] =
      [["missing data validation"], ["missing data validation"],
       ["missing data validation"]] := by decide
  unfold escalationFires
  rw [hrg]
  simp only [Bool.and_eq_true, decide_eq_true_eq]
  refine ⟨⟨by norm_num, by norm_num⟩, ⟨by norm_num, ?_⟩, by norm_num⟩
  have hh : ([["missing data validation"], ["missing data validation"],
      ["missing data validation"]] : List (List String)).headD [] =
      ["missing data validation"] := rfl
  have hl : ([["missing data validation"], ["missing data validation"],
      ["missing data validation"]] : List (List String)).getLastD [] =
      ["missing data validation"] := rfl
  rw [hh, hl, sim_missing_validation_self]
  norm_num

/-- C5 counterexample: with feedback history `["", g, g]` (an empty first
round among the last three), the code's trigger fires — Python truthiness
drops the empty entry and compares `g` with `g` — while the claim's
condition, which compares the first of the last three rounds' gap sets
(similarity 0 against the empty round) with the last, is false.  So the
claimed "only when" is violated. -/
theorem C5_counterexample_empty_first_round :
    escalationFires ["", "missing data validation", "missing data validation"]
      0 ["missing data validation"] = true ∧
    ¬ claimedEscalationCondition
      ["", "missing data validation", "missing data validation"]
      0 ["missing data validation"] := by
  constructor
  · have hrg : recentGapsOf
        ["", "missing data validation", "missing data validation"] =
        [["missing data validation"], ["missing data validation"]] := by decide
    unfold escalationFires
    rw [hrg]
    simp only [Bool.and_eq_true, decide_eq_true_eq]
    refine ⟨⟨by norm_num, by norm_num⟩, ⟨by norm_num, ?_⟩, by norm_num⟩
    have hh : ([["missing data validation"], ["missing data validation"]] :
        List (List String)).headD [] = ["missing data validation"] := rfl
    have hl : ([["missing data validation"], ["missing data validation"]] :
        List (List String)).getLastD [] = ["missing data validation"] := rfl
    rw [hh, hl, sim_missing_validation_self]
    norm_num
  · intro hc
    unfold claimedEscalationCondition at hc
    obtain ⟨-, -, h3, -⟩ := hc
    have hlast : pyLastN 3
        ["", "missing data validation", "missing data validation"] =
        ["", "missing data validation", "missing data validation"] := rfl
    rw [hlast] at h3
    have hh : (["", "missing data validation", "missing data validation"] :
        List String).headD "" = "" := rfl
    have hl : (["", "missing data validation", "missing data validation"] :
        List String).getLastD "" = "missing data validation" := rfl
    rw [hh, hl] at h3
    rw [sim_zero_of_empty _ _ (Or.inl (by decide))] at h3
    norm_num at h3

/-- C5 (amended): escalation fires iff the history has more than two
entries, the count is below 2, at least two of the last three feedback
entries are non-empty, the similarity between the first and the last of
those *non-empty* entries' gap sets exceeds 0.3, and the current round
produced a gap; each firing adds exactly 1 to the count; starting from
count 0 the count never exceeds 2 over any run; and in the §8 scenario
(the same keyword-rich gap every round) the trigger stays off for rounds
1-2 and fires in round 3, leaving the count at 1. -/
theorem C5_escalation_guard_amended :
    (∀ (h : List String) (c : Nat) (g : List String),
      escalationFires h c g = true ↔ amendedEscalationCondition h c g) ∧
    (∀ (g : List String) (s : AgentState),
      (debateFeedbackStep g s).1.gap_escalation_count =
        if (debateFeedbackStep g s).2 then s.gap_escalation_count + 1
        else s.gap_escalation_count) ∧
    (∀ (f : Nat → List String) (n : Nat) (s : AgentState),
      (runEscalationRounds f n
        { s with gap_escalation_count := 0 }).gap_escalation_count ≤ 2) ∧
    ((runEscalationRounds (fun _ => ["missing data validation"]) 2
        (initialState "Generate an ETL pipeline")).gap_escalation_count = 0 ∧
      (runEscalationRounds (fun _ => ["missing data validation"]) 3
        (initialState "Generate an ETL pipeline")).gap_escalation_count = 1) := by
  refine ⟨escalationFires_iff_amended, debateFeedbackStep_count_eq,
    fun f n s => runEscalationRounds_cap_aux f n _ (Nat.zero_le 2), ?_, ?_⟩
  · simp [runEscalationRounds, debateFeedbackStep, initialState, pyJoin,
      escFires_round_one, escFires_round_two]
  · simp [runEscalationRounds, debateFeedbackStep, initialState, pyJoin,
      escFires_round_one, escFires_round_two, escFires_round_three]

/-! ## C6 -/

/-- A voting outcome in which every reviewer votes No with a keyword-rich
gap rationale (a round that triggers escalation on a third occurrence). -/
def c6Votes : List StructuredVote :=
  [{ vote := "No", rationale := "missing data validation" },
   { vote := "No", rationale := "missing data validation" },
   { vote := "No", rationale := "missing data validation" }]

/-- A state entering its third voting round with the same gap reported in
the two previous rounds. -/
def c6State : AgentState :=
  { initialState "Generate an ETL pipeline" with
      feedback_history := ["missing data validation",
                           "missing data validation"] }

def c6ValidateFn : List PipelineStep → String →
    Except PyError (PipelineStep × List StructuredVote) :=
  fun _ _ => Except.ok (validationSummaryStep c6Votes, c6Votes)

def c6ResolveFn : String → String → List String →
    Except PyError PipelineStep :=
  fun _ _ _ => Except.ok
    { step_name := "Comprehensive Multi-Gap Resolution"
      code_snippet := ""
      rationale := "Multi-gap resolver addressed: validation" }

/-- C6: when escalation fires, the source executes
`from agents.validator import validate_pipeline` (graph.py:247), but
`agents/validator.py` defines no `validate_pipeline`, so the debate node
raises `ImportError` instead of re-validating the artifact chain: the
claimed intra-round re-validation, consensus forcing and feedback
overwrite (graph.py:248-263) are unreachable. -/
theorem C6_intra_round_validation_unreachable :
    debate_node c6ValidateFn c6ResolveFn c6State =
      Except.error (.importError "validate_pipeline") ∧
    ("validate_pipeline" ∈ validatorModuleNames) = False := by
  constructor
  · have hgaps : extractGaps c6Votes = ["missing data validation"] := by decide
    simp [debate_node, c6ValidateFn, c6ResolveFn, c6State, initialState,
      hgaps, debateFeedbackStep, pyJoin, escFires_round_three,
      importFromValidator, validatorModuleNames]
  · simp [validatorModuleNames]

/-! ## C2 -/

/-- C2 counterexample: an exception from the prompt-refinement
collaborator is not contained — `refine_prompt` has no handler
(agents/prompt_engineer.py:22-27) and `prompt_node` none either
(graph.py:114-122) — so the orchestrator aborts instead of substituting a
fallback. -/
theorem C2_counterexample_prompt_stage_aborts :
    prompt_node (refine_prompt (fun _ => Except.error (.raised "rate limit")))
      (initialState "Build a pipeline") =
      Except.error (.raised "rate limit") := rfl

/-- C2 (amended): errors are contained with fallbacks at the discovery
call, at the guarded generator invocation of the ingest stage, and at
each reviewer invocation; they are *not* contained at the
prompt-refinement call (no handler), at collaborator calls preceding a
stage's guarded invocation (e.g. the ingest stage's retrieval call), or
in the clean/transform stages, whose fallback paths read a missing
attribute and themselves raise. -/
theorem C2_error_containment_amended :
    (∀ (e : PyError) (s : AgentState),
      discovery_node (Except.error e) s = { s with discovered_tools := [] }) ∧
    (∀ (e : PyError) (docs : List String) (mcp : String),
      ingest_data (Except.ok docs) (Except.ok mcp) (Except.error e) =
        Except.ok (ingestFallbackStep (pyErrorText e))) ∧
    (∀ (k : String) (e : PyError),
      get_vote_for_model k (Except.error e) = validationFallbackStep k) ∧
    (∀ (e : PyError) (s : AgentState),
      prompt_node (refine_prompt (fun _ => Except.error e)) s =
        Except.error e) ∧
    (∀ (e : PyError) (mcp : Except PyError String)
        (chain : Except PyError PipelineStep),
      ingest_data (Except.error e) mcp chain = Except.error e) ∧
    (∀ (e : PyError) (step : PipelineStep) (p : String),
      cleanDataGuarded step p (Except.error e) =
        Except.error (.attributeError "output_file_path")) ∧
    (∀ (e : PyError) (step : PipelineStep) (p : String),
      transformDataGuarded step p (Except.error e) =
        Except.error (.attributeError "output_file_path")) :=
  ⟨fun _ _ => rfl, fun _ _ _ => rfl, fun _ _ => rfl, fun _ _ => rfl,
   fun _ _ _ => rfl, fun _ _ _ => rfl, fun _ _ _ => rfl⟩

/-! ## C7 -/

/-- C7 counterexample: an error raised by the clean stage's generator
invocation does not yield an appended fallback artifact — the except
handler reads the undeclared `output_file_path` attribute of the previous
artifact (agents/cleaner.py:100) and raises `AttributeError`, which
propagates. -/
theorem C7_counterexample_clean_fallback_raises :
    cleanDataGuarded (ingestFallbackStep "earlier failure")
      "data/sales_data.csv" (Except.error (.raised "Invalid json output")) =
      Except.error (.attributeError "output_file_path") := rfl

/-- C7 (amended): for the ingest stage, a generator-invocation error
yields the deterministic fallback artifact — step name
`data_ingestion_fallback` (suffixed `_fallback`), rationale naming the
failure with the error text truncated to 100 characters — returned
instead of the error; for the clean and transform stages the fallback
constructors read the missing `output_file_path` attribute, so the stage
call raises instead; the prompt-refinement stage has no fallback at
all. -/
theorem C7_stage_fallback_amended :
    (∀ e : PyError,
      (ingestDataGuarded (Except.error e)).step_name =
        "data_ingestion" ++ "_fallback" ∧
      (ingestDataGuarded (Except.error e)).rationale =
        "Ingestor failed with parsing error. Applied basic CSV loading and profiling. Original error: "
          ++ pyTake 100 (pyErrorText e) ∧
      (∀ (docs : List String) (mcp : String),
        ingest_data (Except.ok docs) (Except.ok mcp) (Except.error e) =
          Except.ok (ingestFallbackStep (pyErrorText e)))) ∧
    (∀ (e : PyError) (st : PipelineStep) (p : String),
      cleanDataGuarded st p (Except.error e) =
        Except.error (.attributeError "output_file_path") ∧
      transformDataGuarded st p (Except.error e) =
        Except.error (.attributeError "output_file_path")) ∧
    (∀ (e : PyError) (s : AgentState),
      prompt_node (refine_prompt (fun _ => Except.error e)) s =
        Except.error e) := by
  exact ⟨fun e => ⟨rfl, rfl, fun _ _ => rfl⟩,
    fun _ _ _ => ⟨rfl, rfl⟩, fun _ _ => rfl⟩

/-! ## C10 -/

theorem prompt_node_setTools (f : String → Except PyError PipelineStep)
    (s : AgentState) (t : List (String × String)) :
    prompt_node f (setTools s t) =
      (prompt_node f s).map (fun x => setTools x t) := by
  obtain ⟨tk, rp, ps, dr, cr, dt, fs, fh, gec, cdp, df, pm⟩ := s
  unfold prompt_node setTools
  simp only []
  cases h : f (if fs ≠ "" then
      fs ++ "\n\nOriginal Task: " ++ tk ++
        "\n\nIMPORTANT: Address the gaps above in your refinements."
    else tk) with
  | ok r => rfl
  | error e => rfl

theorem cursorUpdate_setTools (step : PipelineStep) (k : String)
    (s : AgentState) (t : List (String × String)) :
    cursorUpdate step k (setTools s t) =
      (cursorUpdate step k s).map (fun x => setTools x t) := by
  rw [cursorUpdate_raises, cursorUpdate_raises]
  rfl

theorem ingest_node_setTools
    (f : String → String → String → Except PyError PipelineStep)
    (s : AgentState) (t : List (String × String)) :
    ingest_node f (setTools s t) =
      (ingest_node f s).map (fun x => setTools x t) := by
  obtain ⟨tk, rp, ps, dr, cr, dt, fs, fh, gec, cdp, df, pm⟩ := s
  unfold ingest_node setTools
  simp only []
  cases h : f cdp fs df with
  | ok r => rfl
  | error e => rfl

theorem clean_node_setTools
    (f : String → PipelineStep → String → String → Except PyError PipelineStep)
    (s : AgentState) (t : List (String × String)) :
    clean_node f (setTools s t) =
      (clean_node f s).map (fun x => setTools x t) := by
  obtain ⟨tk, rp, ps, dr, cr, dt, fs, fh, gec, cdp, df, pm⟩ := s
  unfold clean_node setTools
  simp only []
  cases hl : ps.getLast? with
  | none => rfl
  | some last =>
      simp only [except_bind_ok]
      cases h : f cdp last fs df with
      | ok r => rfl
      | error e => rfl

theorem transform_node_setTools
    (f : String → PipelineStep → String → String → Except PyError PipelineStep)
    (s : AgentState) (t : List (String × String)) :
    transform_node f (setTools s t) =
      (transform_node f s).map (fun x => setTools x t) := by
  obtain ⟨tk, rp, ps, dr, cr, dt, fs, fh, gec, cdp, df, pm⟩ := s
  unfold transform_node setTools
  simp only []
  cases hl : ps.getLast? with
  | none => rfl
  | some last =>
      simp only [except_bind_ok]
      cases h : f cdp last fs df with
      | ok r => rfl
      | error e => rfl

theorem debate_node_setTools
    (vf : List PipelineStep → String →
      Except PyError (PipelineStep × List StructuredVote))
    (rf : String → String → List String → Except PyError PipelineStep)
    (s : AgentState) (t : List (String × String)) :
    debate_node vf rf (setTools s t) =
      (debate_node vf rf s).map (fun x => setTools x t) := by
  obtain ⟨tk, rp, ps, dr, cr, dt, fs, fh, gec, cdp, df, pm⟩ := s
  unfold debate_node setTools debateFeedbackStep
  cases hv : vf ps rp with
  | error e => simp [hv]
  | ok p =>
      obtain ⟨step, votes⟩ := p
      simp only [hv, except_bind_ok]
      cases hf : escalationFires (fh ++ [pyJoin "; " (extractGaps votes)])
          gec (extractGaps votes) with
      | true =>
          simp only [reduceIte]
          cases hr : rf (pyJoin "; " (extractGaps votes)) rp
              (fh ++ [pyJoin "; " (extractGaps votes)]) with
          | ok r => rfl
          | error e => rfl
      | false => rfl

/-- A state transformer neither reads nor writes the capability map. -/
def ToolsCongr (f : AgentState → Except PyError AgentState) : Prop :=
  ∀ (s : AgentState) (t : List (String × String)),
    f (setTools s t) = (f s).map (fun x => setTools x t)

theorem toolsCongr_bind {f g : AgentState → Except PyError AgentState}
    (hf : ToolsCongr f) (hg : ToolsCongr g) :
    ToolsCongr (fun s => f s >>= g) := by
  intro s t
  simp only []
  rw [hf]
  cases h : f s with
  | error e => rfl
  | ok s1 =>
      simp only [except_map_ok, except_bind_ok]
      exact hg s1 t

theorem roundPass_toolsCongr (c : Collaborators) : ToolsCongr (roundPass c) := by
  have hdef : roundPass c = fun s => prompt_node c.refineFn s >>=
      fun s => ingest_node c.ingestFn s >>=
      fun s => clean_node c.cleanFn s >>=
      fun s => transform_node c.transformFn s >>=
      debate_node c.validateFn c.resolveFn := rfl
  rw [hdef]
  exact toolsCongr_bind (prompt_node_setTools c.refineFn)
    (toolsCongr_bind (ingest_node_setTools c.ingestFn)
      (toolsCongr_bind (clean_node_setTools c.cleanFn)
        (toolsCongr_bind (transform_node_setTools c.transformFn)
          (debate_node_setTools c.validateFn c.resolveFn))))

theorem route_setTools (s : AgentState) (t : List (String × String)) :
    route (setTools s t) = route s := rfl

theorem runLoop_setTools (c : Collaborators) :
    ∀ (fuel : Nat) (s : AgentState) (t : List (String × String)),
      runLoop c fuel (setTools s t) =
        (runLoop c fuel s).map (fun x => setTools x t) := by
  intro fuel
  induction fuel with
  | zero => intro s t; rfl
  | succ n ih =>
      intro s t
      unfold runLoop
      rw [roundPass_toolsCongr c s t]
      cases h : roundPass c s with
      | error e => rfl
      | ok s1 =>
          simp only [except_map_ok, except_bind_ok, route_setTools]
          cases hroute : route s1 with
          | toEnd => rfl
          | toPrompt => exact ih s1 t

/-- C10: after discovery, nothing reads the capability map.  Two
post-discovery runs over the same collaborators and the same state except
for the discovered capability map (any two maps, including the empty one)
produce the same observables — the same artifacts, votes, feedback,
rounds, consensus flag and outcome — and the routing decision is
likewise unchanged. -/
theorem C10_capability_map_noninterference :
    ∀ (c : Collaborators) (fuel : Nat) (s : AgentState)
      (t1 t2 : List (String × String)),
      (runLoop c fuel (setTools s t1)).map eraseTools =
        (runLoop c fuel (setTools s t2)).map eraseTools ∧
      route (setTools s t1) = route (setTools s t2) := by
  intro c fuel s t1 t2
  constructor
  · rw [runLoop_setTools, runLoop_setTools]
    cases h : runLoop c fuel s with
    | error e => rfl
    | ok x => rfl
  · rfl
